import Mathlib

/-!
Verification of `pkg/clusterlogging/clusterlogforwarder.go` (eco-goinfra).

The Go file is a CRUD builder over a remote Kubernetes API. We embed it
shallowly: the remote cluster is an oracle given by a script of responses
consumed in order, and every remote call issued is logged in a trace, so
that claims of the form "no remote call is issued" become statements about
the trace. Builder mutation through the Go receiver pointer becomes
explicit state passing: each method returns the updated builder. A nil
receiver or nil pointer field is `Option.none`.
-/

namespace Clusterlogging

/-- Identity metadata of a cluster object: the `Name` and `Namespace`
fields of `metaV1.ObjectMeta` that this package reads. -/
structure ObjectMeta where
  name : String
  nspace : String
deriving DecidableEq

/-- A `clov1.ClusterLogForwarder` resource: identity metadata plus an
opaque payload standing for the forwarder spec, which this package never
inspects (it only passes the object whole to the client). `0` is the Go
zero value of the payload. -/
structure ClusterLogForwarder where
  metadata : ObjectMeta
  spec : Nat
deriving DecidableEq

/-- Go `error` values as this package distinguishes them: the typed
k8s not-found error, a plain message from `fmt.Errorf`, or an error
wrapping another one (`fmt.Errorf` with the `%w` verb). -/
inductive GoError where
  | notFound (m : String)
  | errStr (m : String)
  | wrap (m : String) (inner : GoError)
deriving DecidableEq

/-- `k8serrors.IsNotFound`: true exactly on the typed not-found error. -/
def isNotFound : GoError → Bool
  | .notFound _ => true
  | .errStr _ => false
  | .wrap _ _ => false

/-- `IsNotFound` applied to a nullable error; `nil` is not a not-found. -/
def isNotFoundOpt : Option GoError → Bool
  | some e => isNotFound e
  | none => false

/-- A remote call issued through `builder.apiClient`. -/
inductive RemoteCall where
  | get (name nspace : String)
  | create (obj : ClusterLogForwarder)
  | update (obj : ClusterLogForwarder)
  | delete (obj : ClusterLogForwarder)
deriving DecidableEq

/-- One response of the remote cluster: a fetched object or an error for
`Get`, success or an error for create/update/delete. -/
inductive RemoteResp where
  | getOk (obj : ClusterLogForwarder)
  | getErr (e : GoError)
  | opOk
  | opErr (e : GoError)
deriving DecidableEq

/-- Execution state threading the remote cluster through the code: the
responses the cluster will give, in order, and the log of every call
issued so far. -/
structure St where
  script : List RemoteResp
  trace : List RemoteCall
deriving DecidableEq

/-- Initial state: a response script and an empty call log. -/
def st0 (script : List RemoteResp) : St :=
  { script := script, trace := [] }

/-- Issue one remote call: log it and consume the next scripted response.
An exhausted script answers with a generic error. -/
def callRemote (c : RemoteCall) (s : St) : RemoteResp × St :=
  match s.script with
  | [] => (.opErr (.errStr "response script exhausted"),
           { script := [], trace := s.trace ++ [c] })
  | r :: rest => (r, { script := rest, trace := s.trace ++ [c] })

/-- Read a scripted response as the result of a client `Get`. -/
def respToGet : RemoteResp → Option ClusterLogForwarder × Option GoError
  | .getOk o => (some o, none)
  | .getErr e => (none, some e)
  | .opOk => (none, some (.errStr "malformed response"))
  | .opErr e => (none, some e)

/-- Read a scripted response as the result of a client create, update or
delete call. -/
def respToOp : RemoteResp → Option GoError
  | .getOk _ => none
  | .getErr e => some e
  | .opOk => none
  | .opErr e => some e

/-- `builder.apiClient.Get(ctx, key, obj)`. -/
def apiGet (name nspace : String) (s : St) :
    (Option ClusterLogForwarder × Option GoError) × St :=
  let r := callRemote (.get name nspace) s
  (respToGet r.1, r.2)

/-- A create, update or delete call on `builder.apiClient`. -/
def apiOp (c : RemoteCall) (s : St) : Option GoError × St :=
  let r := callRemote c s
  (respToOp r.1, r.2)

/-- `ClusterLogForwarderBuilder`. `apiClient` records only whether the
client handle is non-nil; the client behaviour itself is the response
script in `St`. `errorMsg` is the deferred construction-time error. -/
structure ClusterLogForwarderBuilder where
  Definition : Option ClusterLogForwarder
  Object : Option ClusterLogForwarder
  apiClient : Bool
  errorMsg : String
deriving DecidableEq

/-- Modelled from the spec: `msg.UndefinedCrdObjectErrString` comes from
the shared `msg` package, which is not among the sources here; the spec
only requires a distinct descriptive message for an undefined definition,
and no claim depends on its exact text. -/
def UndefinedCrdObjectErrString (resourceCRD : String) : String :=
  "can not redefine the undefined " ++ resourceCRD

/-- `validate` checks, in order: builder non-nil, `Definition` non-nil,
`apiClient` non-nil. Note that it never consults `errorMsg`, although the
field comment in the source says the message is processed before the
object is created. -/
def validate : Option ClusterLogForwarderBuilder → Bool × Option GoError
  | none => (false, some (.errStr "error: received nil ClusterLogForwarder builder"))
  | some b =>
    match b.Definition with
    | none => (false, some (.errStr (UndefinedCrdObjectErrString "ClusterLogForwarder")))
    | some _ =>
      if b.apiClient then (true, none)
      else (false, some (.errStr "ClusterLogForwarder builder cannot have nil apiClient"))

/-- The definition a remote call passes (`builder.Definition` after
validation has guaranteed it is present; the default is unreachable). -/
def ClusterLogForwarderBuilder.defn (b : ClusterLogForwarderBuilder) :
    ClusterLogForwarder :=
  b.Definition.getD { metadata := { name := "", nspace := "" }, spec := 0 }

/-- `Get`: validate, then fetch by the definition name and namespace,
returning the fetched object or the remote error unchanged. -/
def Get (builder : Option ClusterLogForwarderBuilder) (s : St) :
    (Option ClusterLogForwarder × Option GoError) × St :=
  match builder with
  | none => ((none, (validate none).2), s)
  | some b =>
    if (validate (some b)).1 then
      let r := apiGet b.defn.metadata.name b.defn.metadata.nspace s
      (r.1, r.2)
    else ((none, (validate (some b)).2), s)

/-- `Exists`: validate (returning false and swallowing the error on an
invalid builder), then `builder.Object, err = builder.Get()` and
`return err == nil || !k8serrors.IsNotFound(err)`. The updated builder is
returned alongside the boolean (Go mutates through the receiver). -/
def Exists (builder : Option ClusterLogForwarderBuilder) (s : St) :
    (Bool × Option ClusterLogForwarderBuilder) × St :=
  match builder with
  | none => ((false, none), s)
  | some b =>
    if (validate (some b)).1 then
      let r := Get (some b) s
      ((r.1.2.isNone || !(isNotFoundOpt r.1.2), some { b with Object := r.1.1 }), r.2)
    else ((false, some b), s)

/-- `Create`: validate; if the object does not exist, issue a remote
create of the definition and on success set `Object := Definition`;
if it exists, do nothing and return a nil error. -/
def Create (builder : Option ClusterLogForwarderBuilder) (s : St) :
    (Option ClusterLogForwarderBuilder × Option GoError) × St :=
  match builder with
  | none => ((none, (validate none).2), s)
  | some b =>
    if (validate (some b)).1 then
      let ex := Exists (some b) s
      let b1 := ex.1.2.getD b
      if ex.1.1 then ((some b1, none), ex.2)
      else
        let op := apiOp (.create b1.defn) ex.2
        match op.1 with
        | none => ((some { b1 with Object := b1.Definition }, none), op.2)
        | some e => ((some b1, some e), op.2)
    else ((some b, (validate (some b)).2), s)

/-- `Delete`: validate; fail if the object does not exist; otherwise
issue a remote delete, wrapping any remote error, and on success clear
`Object`. Returns the error and the updated builder. -/
def Delete (builder : Option ClusterLogForwarderBuilder) (s : St) :
    (Option GoError × Option ClusterLogForwarderBuilder) × St :=
  match builder with
  | none => (((validate none).2, none), s)
  | some b =>
    if (validate (some b)).1 then
      let ex := Exists (some b) s
      let b1 := ex.1.2.getD b
      if ex.1.1 then
        let op := apiOp (.delete b1.defn) ex.2
        match op.1 with
        | some e => ((some (.wrap "can not delete clusterlogforwarder" e), some b1), op.2)
        | none => ((none, some { b1 with Object := none }), op.2)
      else
        ((some (.errStr "clusterlogforwarder cannot be deleted because it does not exist"),
          some b1), ex.2)
    else (((validate (some b)).2, some b), s)

/-- `Update(force)`: validate, issue a remote update of the definition.
On failure with `force`, call `Delete()`; if that fails return
`(nil, deleteErr)`, otherwise return `builder.Create()`. On failure
without `force` return the update error unchanged. On success set
`Object := Definition`. -/
def Update (builder : Option ClusterLogForwarderBuilder) (force : Bool) (s : St) :
    (Option ClusterLogForwarderBuilder × Option GoError) × St :=
  match builder with
  | none => ((none, (validate none).2), s)
  | some b =>
    if (validate (some b)).1 then
      let op := apiOp (.update b.defn) s
      match op.1 with
      | some e =>
        if force then
          let d := Delete (some b) op.2
          match d.1.1 with
          | some de => ((none, some de), d.2)
          | none => Create d.1.2 d.2
        else ((some b, some e), op.2)
      | none => ((some { b with Object := b.Definition }, none), op.2)
    else ((some b, (validate (some b)).2), s)

/-- `PullClusterLogForwarder`: build a builder scoped to name/namespace,
record a deferred `errorMsg` when either is empty, then `Exists()`;
return the fetched object, or an error when it does not exist. -/
def PullClusterLogForwarder (apiClient : Bool) (name nspace : String) (s : St) :
    (Option ClusterLogForwarder × Option GoError) × St :=
  let builder : ClusterLogForwarderBuilder :=
    { apiClient := apiClient,
      Definition := some { metadata := { name := name, nspace := nspace }, spec := 0 },
      Object := none,
      errorMsg := "" }
  let builder1 :=
    if name = "" then { builder with errorMsg := "clusterlogforwarder name cannot be empty" }
    else builder
  let builder2 :=
    if nspace = "" then { builder1 with errorMsg := "clusterlogforwarder namespace cannot be empty" }
    else builder1
  let ex := Exists (some builder2) s
  if ex.1.1 then (((ex.1.2.getD builder2).Object, none), ex.2)
  else
    ((none, some (.errStr ("clusterlogforwarder object " ++ name ++
      " does not exist in namespace " ++ nspace))), ex.2)

/-- A valid builder used to instantiate the universally quantified
theorems on concrete inputs. -/
def bA : ClusterLogForwarderBuilder :=
  { Definition := some { metadata := { name := "clf", nspace := "openshift-logging" }, spec := 1 },
    Object := none,
    apiClient := true,
    errorMsg := "" }

/-- A remote object with the same identity as `bA.Definition` but a
different spec payload. -/
def remoteA : ClusterLogForwarder :=
  { metadata := { name := "clf", nspace := "openshift-logging" }, spec := 2 }

/-- The validation error for a nil builder receiver. -/
def nilBuilderErr : GoError :=
  .errStr "error: received nil ClusterLogForwarder builder"

/-- When validation of a non-nil builder fails, the accompanying error is
non-nil. -/
theorem validate_false_some (b : ClusterLogForwarderBuilder)
    (h : (validate (some b)).1 = false) : (validate (some b)).2.isSome = true := by
  unfold validate at h ⊢
  cases hd : b.Definition with
  | none => simp [hd]
  | some d =>
    simp only [hd] at h ⊢
    cases hc : b.apiClient with
    | true => simp [hc] at h
    | false => simp [hc]

/-- One remote call appends itself to the trace. -/
theorem callRemote_trace (c : RemoteCall) (s : St) :
    (callRemote c s).2.trace = s.trace ++ [c] := by
  unfold callRemote
  cases s.script <;> rfl

/-- On a valid builder, `Exists` advances the state exactly by the one
`Get` call keyed by the definition. -/
theorem Exists_state_valid (b : ClusterLogForwarderBuilder) (s : St)
    (h : (validate (some b)).1 = true) :
    (Exists (some b) s).2
      = (callRemote (RemoteCall.get b.defn.metadata.name b.defn.metadata.nspace) s).2 := by
  simp [Exists, Get, apiGet, h]

/-- On a valid builder, `Exists` returns the builder whose `Object` is
exactly the result of the internal `Get`. -/
theorem Exists_snd_valid (b : ClusterLogForwarderBuilder) (s : St)
    (h : (validate (some b)).1 = true) :
    (Exists (some b) s).1.2 = some { b with Object := (Get (some b) s).1.1 } := by
  simp [Exists, h]

/-- On a valid builder, the boolean of `Exists` is
`err == nil || !IsNotFound(err)` for the error of the internal `Get`. -/
theorem Exists_fst_valid (b : ClusterLogForwarderBuilder) (s : St)
    (h : (validate (some b)).1 = true) :
    (Exists (some b) s).1.1
      = ((Get (some b) s).1.2.isNone || !(isNotFoundOpt (Get (some b) s).1.2)) := by
  simp [Exists, h]

/-- A `Get` that reports an error reports no object. -/
theorem Get_err_no_obj (builder : Option ClusterLogForwarderBuilder) (s : St)
    (h : (Get builder s).1.2 ≠ none) : (Get builder s).1.1 = none := by
  unfold Get at h ⊢
  cases builder with
  | none => rfl
  | some b =>
    cases hv : (validate (some b)).1 with
    | false => simp [hv]
    | true =>
      simp only [hv, if_true] at h ⊢
      unfold apiGet
      cases hr : (callRemote (RemoteCall.get b.defn.metadata.name b.defn.metadata.nspace) s).1 <;>
        simp_all [apiGet, respToGet]

/-- `Delete` leaves the trace as it was, or appends one `Get` call, or
appends one `Get` call followed by one delete call. -/
theorem Delete_trace_cases (b : ClusterLogForwarderBuilder) (s : St) :
    (Delete (some b) s).2.trace = s.trace ∨
    (Delete (some b) s).2.trace
      = s.trace ++ [RemoteCall.get b.defn.metadata.name b.defn.metadata.nspace] ∨
    (Delete (some b) s).2.trace
      = s.trace ++ [RemoteCall.get b.defn.metadata.name b.defn.metadata.nspace,
                    RemoteCall.delete b.defn] := by
  unfold Delete
  cases hv : (validate (some b)).1 with
  | false => simp [hv]
  | true =>
    have hst := Exists_state_valid b s hv
    have hsnd := Exists_snd_valid b s hv
    simp only [hv, if_true]
    cases hex : (Exists (some b) s).1.1 with
    | false =>
      right; left
      simp only [hex, if_false, Bool.false_eq_true]
      rw [hst, callRemote_trace]
    | true =>
      right; right
      simp only [hex, if_true]
      have hb1 : ((Exists (some b) s).1.2.getD b).defn = b.defn := by
        rw [hsnd]; rfl
      rcases hop : (apiOp (RemoteCall.delete ((Exists (some b) s).1.2.getD b).defn)
          (Exists (some b) s).2).1 with _ | e <;>
      · simp only [hop]
        rw [show (apiOp (RemoteCall.delete ((Exists (some b) s).1.2.getD b).defn)
              (Exists (some b) s).2).2.trace
            = (Exists (some b) s).2.trace
              ++ [RemoteCall.delete ((Exists (some b) s).1.2.getD b).defn] from by
          unfold apiOp; rw [callRemote_trace]]
        rw [hb1, hst, callRemote_trace, List.append_assoc]
        rfl

/-- `Delete` never issues a remote create call. -/
theorem Delete_no_create (b : ClusterLogForwarderBuilder) (s : St)
    (x : ClusterLogForwarder)
    (h : RemoteCall.create x ∈ (Delete (some b) s).2.trace) :
    RemoteCall.create x ∈ s.trace := by
  rcases Delete_trace_cases b s with ht | ht | ht <;> rw [ht] at h <;> simp_all

/-- On a valid builder, a failing remote update under `force` hands over
to `Delete` on the state past the update call and then either surfaces the
delete error with a nil builder or defers to `Create`. -/
theorem Update_fail_force (b : ClusterLogForwarderBuilder) (r : RemoteResp)
    (rest : List RemoteResp) (tr : List RemoteCall) (e : GoError)
    (hv : (validate (some b)).1 = true) (he : respToOp r = some e) :
    Update (some b) true { script := r :: rest, trace := tr }
      = (match (Delete (some b)
            { script := rest, trace := tr ++ [RemoteCall.update b.defn] }).1.1 with
         | some de => ((none, some de),
             (Delete (some b)
               { script := rest, trace := tr ++ [RemoteCall.update b.defn] }).2)
         | none => Create
             (Delete (some b)
               { script := rest, trace := tr ++ [RemoteCall.update b.defn] }).1.2
             (Delete (some b)
               { script := rest, trace := tr ++ [RemoteCall.update b.defn] }).2) := by
  simp [Update, hv, apiOp, callRemote, he]

/-- On a valid builder, a successful remote update sets
`Object := Definition` and issues exactly the one update call, for either
value of `force`. -/
theorem Update_success (b : ClusterLogForwarderBuilder) (r : RemoteResp)
    (rest : List RemoteResp) (tr : List RemoteCall) (f : Bool)
    (hv : (validate (some b)).1 = true) (he : respToOp r = none) :
    Update (some b) f { script := r :: rest, trace := tr }
      = ((some { b with Object := b.Definition }, none),
         { script := rest, trace := tr ++ [RemoteCall.update b.defn] }) := by
  simp [Update, hv, apiOp, callRemote, he]

/-- C1: the claim says `PullClusterLogForwarder` with an empty name fails
validation and returns an error before any remote fetch. The code
disagrees: `validate` never consults the deferred `errorMsg`, so with a
non-nil client the builder passes validation, a remote `Get` keyed by the
empty name is issued, and when the remote answers with an object, Pull
even returns it with a nil error. This theorem evaluates the code at that
failing input. -/
theorem c1_pull_empty_name_remote_fetch :
    (PullClusterLogForwarder true "" "openshift-logging"
        (st0 [RemoteResp.getOk remoteA])).2.trace
      = [RemoteCall.get "" "openshift-logging"] ∧
    (PullClusterLogForwarder true "" "openshift-logging"
        (st0 [RemoteResp.getOk remoteA])).1
      = (some remoteA, none) := by decide

/-- C2: `Exists` returns false whenever validation fails, regardless of
the remote script; when validation succeeds, `Exists` returns true iff the
internal `Get` succeeded or failed with an error other than not-found. -/
theorem c2_exists_validation_and_get (builder : Option ClusterLogForwarderBuilder)
    (s : St) :
    ((validate builder).1 = false → (Exists builder s).1.1 = false) ∧
    ((validate builder).1 = true →
      ((Exists builder s).1.1 = true ↔
        ((Get builder s).1.2 = none ∨ isNotFoundOpt (Get builder s).1.2 = false))) := by
  constructor
  · intro h
    cases builder with
    | none => rfl
    | some b => simp [Exists, h]
  · intro h
    cases builder with
    | none => simp [validate] at h
    | some b =>
      rw [Exists_fst_valid b s h]
      cases hg : (Get (some b) s).1.2 <;> simp [isNotFoundOpt, hg]

/-- Witness for C2 at concrete inputs: a nil builder never exists; a valid
builder whose `Get` fetches an object exists. -/
theorem c2_exists_witness :
    (Exists none (st0 [])).1.1 = false ∧
    (Exists (some bA) (st0 [RemoteResp.getOk remoteA])).1.1 = true := by
  constructor
  · exact (c2_exists_validation_and_get none (st0 [])).1 (by decide)
  · exact ((c2_exists_validation_and_get (some bA)
      (st0 [RemoteResp.getOk remoteA])).2 (by decide)).mpr (by decide)

/-- C8: every public method called on a nil builder receiver returns the
"received nil builder" validation error (false for `Exists`) and leaves
the state — in particular the call trace — untouched. -/
theorem c8_nil_receiver (s : St) (f : Bool) :
    Get none s = ((none, some nilBuilderErr), s) ∧
    Create none s = ((none, some nilBuilderErr), s) ∧
    Delete none s = ((some nilBuilderErr, none), s) ∧
    Update none f s = ((none, some nilBuilderErr), s) ∧
    Exists none s = ((false, none), s) :=
  ⟨rfl, rfl, rfl, rfl, rfl⟩

/-- C3: for every valid builder, when `Update(force := true)` hits a
failing remote update, it performs `Delete` and then hands over to
`Create` on the post-delete builder and state; if the delete fails, the
create is never attempted (no remote create call appears anywhere in the
trace) and the delete error is returned. -/
theorem c3_update_force_delete_then_create (b : ClusterLogForwarderBuilder)
    (r : RemoteResp) (rest : List RemoteResp) (e : GoError)
    (hv : (validate (some b)).1 = true) (he : respToOp r = some e) :
    ((Delete (some b) { script := rest, trace := [RemoteCall.update b.defn] }).1.1 = none →
      Update (some b) true (st0 (r :: rest))
        = Create
            (Delete (some b) { script := rest, trace := [RemoteCall.update b.defn] }).1.2
            (Delete (some b) { script := rest, trace := [RemoteCall.update b.defn] }).2) ∧
    (∀ de,
      (Delete (some b) { script := rest, trace := [RemoteCall.update b.defn] }).1.1
          = some de →
      (Update (some b) true (st0 (r :: rest))).1 = (none, some de) ∧
      ∀ x, RemoteCall.create x ∉ (Update (some b) true (st0 (r :: rest))).2.trace) := by
  have hu := Update_fail_force b r rest [] e hv he
  simp only [List.nil_append] at hu
  constructor
  · intro h0
    rw [show st0 (r :: rest) = { script := r :: rest, trace := [] } from rfl, hu, h0]
  · intro de hde
    rw [show st0 (r :: rest) = { script := r :: rest, trace := [] } from rfl, hu, hde]
    refine ⟨rfl, ?_⟩
    intro x hx
    have hx' : RemoteCall.create x
        ∈ (Delete (some b)
            { script := rest, trace := [RemoteCall.update b.defn] }).2.trace := hx
    have := Delete_no_create b
      { script := rest, trace := [RemoteCall.update b.defn] } x hx'
    simp at this

/-- Witness for C3: `bA` with a failing update, an existence check that
finds the object, and a failing remote delete; the wrapped delete error
comes back with a nil builder and no create happens. -/
theorem c3_witness :
    (Update (some bA) true (st0 [RemoteResp.opErr (GoError.errStr "update failed"),
        RemoteResp.getOk remoteA, RemoteResp.opErr (GoError.errStr "delete failed")])).1
      = (none, some (GoError.wrap "can not delete clusterlogforwarder"
          (GoError.errStr "delete failed"))) := by
  exact ((c3_update_force_delete_then_create bA
    (RemoteResp.opErr (GoError.errStr "update failed"))
    [RemoteResp.getOk remoteA, RemoteResp.opErr (GoError.errStr "delete failed")]
    (GoError.errStr "update failed") (by decide) (by decide)).2
    (GoError.wrap "can not delete clusterlogforwarder" (GoError.errStr "delete failed"))
    (by decide)).1

/-- C6: for every valid builder, `Update(force := false)` on a failing
remote update returns that error unchanged together with the unchanged
builder, and the trace holds only the one update call — no delete, no
create. -/
theorem c6_update_noforce_fail (b : ClusterLogForwarderBuilder)
    (r : RemoteResp) (rest : List RemoteResp) (e : GoError)
    (hv : (validate (some b)).1 = true) (he : respToOp r = some e) :
    Update (some b) false (st0 (r :: rest))
      = ((some b, some e), { script := rest, trace := [RemoteCall.update b.defn] }) := by
  simp [Update, hv, apiOp, callRemote, he, st0]

/-- Witness for C6 at a concrete failing update. -/
theorem c6_witness :
    (Update (some bA) false (st0 [RemoteResp.opErr (GoError.errStr "server error")])).1
      = (some bA, some (GoError.errStr "server error")) := by
  rw [c6_update_noforce_fail bA (RemoteResp.opErr (GoError.errStr "server error")) []
    (GoError.errStr "server error") (by decide) (by decide)]

/-- C10: when `Update(force := true)` falls back after a failing remote
update and the internal `Delete` fails, `Update` returns a nil builder
pointer together with the delete error. -/
theorem c10_update_force_delete_fail_nil_builder (b : ClusterLogForwarderBuilder)
    (r : RemoteResp) (rest : List RemoteResp) (e de : GoError)
    (hv : (validate (some b)).1 = true) (he : respToOp r = some e)
    (hde : (Delete (some b)
        { script := rest, trace := [RemoteCall.update b.defn] }).1.1 = some de) :
    (Update (some b) true (st0 (r :: rest))).1 = (none, some de) := by
  have hu := Update_fail_force b r rest [] e hv he
  simp only [List.nil_append] at hu
  rw [show st0 (r :: rest) = { script := r :: rest, trace := [] } from rfl, hu, hde]

/-- Witness for C10: the internal delete fails because the existence
check reports not-found; that error is returned with a nil builder. -/
theorem c10_witness :
    (Update (some bA) true (st0 [RemoteResp.opErr (GoError.errStr "conflict"),
        RemoteResp.getErr (GoError.notFound "nf")])).1
      = (none, some (GoError.errStr
          "clusterlogforwarder cannot be deleted because it does not exist")) := by
  exact c10_update_force_delete_fail_nil_builder bA
    (RemoteResp.opErr (GoError.errStr "conflict"))
    [RemoteResp.getErr (GoError.notFound "nf")]
    (GoError.errStr "conflict")
    (GoError.errStr "clusterlogforwarder cannot be deleted because it does not exist")
    (by decide) (by decide) (by decide)

/-- On a valid builder whose existence check reports false, `Delete`
returns the specific "does not exist" error and the post-check builder
and state, issuing nothing beyond the check's own `Get`. -/
theorem Delete_notexists (b : ClusterLogForwarderBuilder) (s : St)
    (hv : (validate (some b)).1 = true) (hex : (Exists (some b) s).1.1 = false) :
    Delete (some b) s
      = ((some (.errStr "clusterlogforwarder cannot be deleted because it does not exist"),
          (Exists (some b) s).1.2), (Exists (some b) s).2) := by
  simp [Delete, hv, hex, Exists_snd_valid b s hv]

/-- C4: `Create` is idempotent: on a valid builder whose existence check
reports true, `Create` issues no remote create call and returns the
post-check builder with a nil error; hence a remote create is issued only
when the resource does not already exist. -/
theorem c4_create_idempotent (b : ClusterLogForwarderBuilder)
    (script : List RemoteResp)
    (hv : (validate (some b)).1 = true)
    (hex : (Exists (some b) (st0 script)).1.1 = true) :
    Create (some b) (st0 script)
      = (((Exists (some b) (st0 script)).1.2, none), (Exists (some b) (st0 script)).2) ∧
    ∀ x, RemoteCall.create x ∉ (Create (some b) (st0 script)).2.trace := by
  have hcr : Create (some b) (st0 script)
      = (((Exists (some b) (st0 script)).1.2, none), (Exists (some b) (st0 script)).2) := by
    simp [Create, hv, hex, Exists_snd_valid b (st0 script) hv]
  refine ⟨hcr, ?_⟩
  intro x hx
  rw [hcr, Exists_state_valid b (st0 script) hv, callRemote_trace] at hx
  simp [st0] at hx

/-- Witness for C4: the remote already holds the object, so `Create`
returns a nil error (and the trace lemma says no create call happened). -/
theorem c4_witness :
    (Create (some bA) (st0 [RemoteResp.getOk remoteA])).1.2 = none := by
  rw [(c4_create_idempotent bA [RemoteResp.getOk remoteA] (by decide) (by decide)).1]

/-- C5: on a valid builder, `Delete` on a non-existent resource returns
the specific "does not exist" error and issues no remote delete call;
when the resource exists and the remote delete fails, the error comes
back wrapped with the contextual message. -/
theorem c5_delete_errors (b : ClusterLogForwarderBuilder)
    (script : List RemoteResp) (r : RemoteResp) (e : GoError)
    (hv : (validate (some b)).1 = true) :
    ((Exists (some b) (st0 script)).1.1 = false →
      (Delete (some b) (st0 script)).1.1
        = some (.errStr "clusterlogforwarder cannot be deleted because it does not exist") ∧
      ∀ x, RemoteCall.delete x ∉ (Delete (some b) (st0 script)).2.trace) ∧
    ((Exists (some b) (st0 script)).1.1 = true →
      (Exists (some b) (st0 script)).2.script.head? = some r →
      respToOp r = some e →
      (Delete (some b) (st0 script)).1.1
        = some (.wrap "can not delete clusterlogforwarder" e)) := by
  constructor
  · intro hex
    have hd := Delete_notexists b (st0 script) hv hex
    refine ⟨by rw [hd], ?_⟩
    intro x hx
    rw [hd, Exists_state_valid b (st0 script) hv, callRemote_trace] at hx
    simp [st0] at hx
  · intro hex hh he
    cases hsc : (Exists (some b) (st0 script)).2.script with
    | nil => rw [hsc] at hh; simp at hh
    | cons a t =>
      rw [hsc] at hh
      simp at hh
      subst hh
      simp [Delete, hv, hex, apiOp, callRemote, hsc, he]

/-- Witness for C5: a not-found check yields the "does not exist" error;
an existing object with a failing remote delete yields the wrapped
error. -/
theorem c5_witness :
    (Delete (some bA) (st0 [RemoteResp.getErr (GoError.notFound "nf")])).1.1
      = some (GoError.errStr
          "clusterlogforwarder cannot be deleted because it does not exist") ∧
    (Delete (some bA) (st0 [RemoteResp.getOk remoteA,
        RemoteResp.opErr (GoError.errStr "x")])).1.1
      = some (GoError.wrap "can not delete clusterlogforwarder"
          (GoError.errStr "x")) := by
  constructor
  · exact ((c5_delete_errors bA [RemoteResp.getErr (GoError.notFound "nf")]
      RemoteResp.opOk (GoError.errStr "x") (by decide)).1 (by decide)).1
  · exact (c5_delete_errors bA
      [RemoteResp.getOk remoteA, RemoteResp.opErr (GoError.errStr "x")]
      (RemoteResp.opErr (GoError.errStr "x")) (GoError.errStr "x") (by decide)).2
      (by decide) (by decide) (by decide)

/-- C7 fails as stated: a `Create` that returns a nil error because the
resource already exists leaves `Object` holding the object fetched by the
existence check, which differs from the definition. Concrete run: the
valid builder `bA` (definition spec payload 1), remote answering the
existence check with `remoteA` (spec payload 2). -/
theorem c7_counterexample :
    (Create (some bA) (st0 [RemoteResp.getOk remoteA])).1
      = (some { bA with Object := some remoteA }, none) ∧
    some remoteA ≠ bA.Definition := by decide

/-- C7 amended: after a successful `Delete`, `Object` is nil; after an
`Update` whose in-place remote update succeeds, `Object` equals
`Definition`; after a `Create` whose existence check reports false and
whose remote create succeeds, `Object` equals `Definition`. (When
`Create` returns a nil error only because the resource already exists,
`Object` instead keeps the object fetched by the existence check, which
need not equal the definition — the counterexample above.) -/
theorem c7_object_tracking (b : ClusterLogForwarderBuilder) (s : St)
    (r r2 : RemoteResp) (rest : List RemoteResp) (tr : List RemoteCall) (f : Bool) :
    ((Delete (some b) s).1.1 = none →
      ((Delete (some b) s).1.2).map ClusterLogForwarderBuilder.Object = some none) ∧
    ((validate (some b)).1 = true → respToOp r = none →
      (Update (some b) f { script := r :: rest, trace := tr }).1
        = (some { b with Object := b.Definition }, none)) ∧
    ((validate (some b)).1 = true → (Exists (some b) s).1.1 = false →
      (Exists (some b) s).2.script.head? = some r2 → respToOp r2 = none →
      (Create (some b) s).1.2 = none ∧
      ((Create (some b) s).1.1).map ClusterLogForwarderBuilder.Object
        = some b.Definition) := by
  refine ⟨?_, ?_, ?_⟩
  · intro h0
    cases hv : (validate (some b)).1 with
    | false =>
      exfalso
      have hs := validate_false_some b hv
      simp only [Delete, hv, Bool.false_eq_true, if_false] at h0
      rw [h0] at hs
      simp at hs
    | true =>
      cases hex : (Exists (some b) s).1.1 with
      | false =>
        exfalso
        rw [Delete_notexists b s hv hex] at h0
        simp at h0
      | true =>
        rcases hop : (apiOp (RemoteCall.delete
            (((Exists (some b) s).1.2.getD b)).defn) (Exists (some b) s).2).1 with _ | e
        · simp [Delete, hv, hex, hop]
        · exfalso
          simp only [Delete, hv, if_true, hex, hop] at h0
          simp at h0
  · intro hv he
    rw [Update_success b r rest tr f hv he]
  · intro hv hex hh he
    cases hsc : (Exists (some b) s).2.script with
    | nil => rw [hsc] at hh; simp at hh
    | cons a t =>
      rw [hsc] at hh
      simp at hh
      subst hh
      constructor
      · simp [Create, hv, hex, apiOp, callRemote, hsc, he]
      · simp [Create, hv, hex, apiOp, callRemote, hsc, he,
          Exists_snd_valid b s hv]

/-- Witness for the amended C7: a successful delete clears `Object`; a
successful in-place update and a create of a missing object both set
`Object` to the definition. -/
theorem c7_witness :
    ((Delete (some bA) (st0 [RemoteResp.getOk remoteA, RemoteResp.opOk])).1.2).map
      ClusterLogForwarderBuilder.Object = some none ∧
    (Update (some bA) false (st0 [RemoteResp.opOk])).1
      = (some { bA with Object := bA.Definition }, none) ∧
    ((Create (some bA) (st0 [RemoteResp.getErr (GoError.notFound "nf"),
        RemoteResp.opOk])).1.1).map ClusterLogForwarderBuilder.Object
      = some bA.Definition := by
  refine ⟨?_, ?_, ?_⟩
  · exact (c7_object_tracking bA (st0 [RemoteResp.getOk remoteA, RemoteResp.opOk])
      RemoteResp.opOk RemoteResp.opOk [] [] false).1 (by decide)
  · exact (c7_object_tracking bA (st0 []) RemoteResp.opOk RemoteResp.opOk [] []
      false).2.1 (by decide) (by decide)
  · exact ((c7_object_tracking bA
      (st0 [RemoteResp.getErr (GoError.notFound "nf"), RemoteResp.opOk])
      RemoteResp.opOk RemoteResp.opOk [] [] false).2.2
      (by decide) (by decide) (by decide) (by decide)).2

/-- C9: every `Exists` on a valid builder overwrites `Object` with the
result of the internal `Get`: the freshly fetched object on success, nil
on any error — including non-not-found errors, for which `Exists` still
reports true while `Object` is nil. -/
theorem c9_exists_overwrites_object (b : ClusterLogForwarderBuilder) (s : St)
    (hv : (validate (some b)).1 = true) :
    (Exists (some b) s).1.2 = some { b with Object := (Get (some b) s).1.1 } ∧
    ((Get (some b) s).1.2 ≠ none → (Get (some b) s).1.1 = none) ∧
    (∀ e, (Get (some b) s).1.2 = some e → isNotFound e = false →
      (Exists (some b) s).1.1 = true ∧
      (Exists (some b) s).1.2 = some { b with Object := none }) := by
  refine ⟨Exists_snd_valid b s hv, fun h => Get_err_no_obj (some b) s h, ?_⟩
  intro e hge hnf
  have hobj : (Get (some b) s).1.1 = none :=
    Get_err_no_obj (some b) s (by simp [hge])
  constructor
  · rw [Exists_fst_valid b s hv, hge]
    simp [isNotFoundOpt, hnf]
  · rw [Exists_snd_valid b s hv, hobj]

/-- Witness for C9: a non-not-found fetch error makes `Exists` report
true while `Object` is overwritten with nil. -/
theorem c9_witness :
    (Exists (some bA) (st0 [RemoteResp.getErr (GoError.errStr "boom")])).1.1 = true ∧
    (Exists (some bA) (st0 [RemoteResp.getErr (GoError.errStr "boom")])).1.2
      = some { bA with Object := none } := by
  exact (c9_exists_overwrites_object bA
    (st0 [RemoteResp.getErr (GoError.errStr "boom")]) (by decide)).2.2
    (GoError.errStr "boom") (by decide) (by decide)

end Clusterlogging
